import Mathlib

set_option maxRecDepth 8000

/-!
Shallow embedding of the RAG query processor lambda
(src/AWS/Serverless Architecture/External/Query_Processor_Lambda.py).

The handler orchestrates external collaborators (secret store, embedding
endpoint, vector index, chat-completion endpoint, metrics backend).  Those
collaborators are modelled as an oracle record of pure functions; the code
of the repository (validation, control flow, response shaping, error
mapping, metric publication) is translated faithfully from the source.
Publishing a metric is recorded in a log of attempted puts, so properties
about which metrics get published are statable.
-/

/-- A JSON-like value, the shape of response bodies built by the handler. -/
inductive Json where
  | str (s : String)
  | num (n : Rat)
  | arr (xs : List Json)
  | obj (fields : List (String × Json))

/-- A document hit returned by the vector index: the projected fields
title, content, metadata, each of which may be absent. -/
structure RetrievedDoc where
  title : Option String
  content : Option String
  metadata : Option (List (String × String))
deriving DecidableEq

/-- The parsed request body: a mapping that may or may not carry a query
string. -/
structure Body where
  query : Option String
deriving DecidableEq

/-- The inbound event body: absent, a raw string still to be JSON-decoded,
or an already structured object. -/
inductive EventBody where
  | absent
  | str (s : String)
  | obj (b : Body)
deriving DecidableEq

/-- The inbound event. -/
structure Event where
  body : EventBody
deriving DecidableEq

/-- Response of the embedding endpoint: HTTP status, raw body text, and the
embedding vectors found at data[i].embedding of the decoded payload. -/
structure EmbedResponse where
  status : Nat
  text : String
  dataEmbeddings : List (List Rat)

/-- Response of the chat-completion endpoint: HTTP status, raw body text,
and the message contents found at choices[i].message.content. -/
structure ChatResponse where
  status : Nat
  text : String
  choices : List String

/-- A metric datum as put to the metrics backend: name, value, unit and the
environment dimension. -/
structure Metric where
  name : String
  value : Rat
  unit : String
  environment : String
deriving DecidableEq

/-- The external collaborators and ambient configuration of one invocation:
JSON decoding of a string body, the secret store (api key or failure), the
embedding endpoint as a function of the input text, the vector index as a
function of the query embedding, the chat endpoint as a function of the user
prompt, the metrics backend (which may fail), the ENVIRONMENT variable, and
the two samples of the remaining-time counter. -/
structure Oracle where
  jsonLoads : String → Except String Body
  getSecret : Except String String
  embedApi : String → EmbedResponse
  searchApi : List Rat → Except String (List RetrievedDoc)
  chatApi : String → ChatResponse
  metricsBackend : Metric → Except String Unit
  environment : Option String
  startTime : Int
  remainingAtEnd : Int

/-- A single apostrophe character, used inside string literals. -/
def apos : String := String.singleton (Char.ofNat 39)

/-- Python str.strip with no argument: remove whitespace from both ends. -/
def pyStrip (s : String) : String :=
  ⟨((s.data.dropWhile Char.isWhitespace).reverse.dropWhile
      Char.isWhitespace).reverse⟩

/-- Embedding client, from generate_embedding: fetch the api key, POST the
text to the embeddings endpoint, and on status 200 return
json data[0].embedding; otherwise raise an exception carrying the status
code.  Failures of the secret fetch and the index error on an empty data
array propagate as in the source. -/
def generate_embedding (o : Oracle) (text : String) :
    Except String (List Rat) :=
  match o.getSecret with
  | .error e => .error e
  | .ok _api_key =>
    let response := o.embedApi text
    if response.status = 200 then
      match response.dataEmbeddings with
      | v :: _ => .ok v
      | [] => .error "list index out of range"
    else
      .error ("Embedding generation failed: " ++ toString response.status)

/-- Vector search client, from search_similar_documents: the k-NN query
itself is executed by the external index, modelled by the oracle; the
function returns the hit sources or propagates the index failure. -/
def search_similar_documents (o : Oracle) (query_embedding : List Rat) :
    Except String (List RetrievedDoc) :=
  o.searchApi query_embedding

/-- The context block built by generate_rag_response: each document rendered
as Document: title, newline, content (title defaulting to Unknown, content
to empty), joined with blank lines. -/
def ragContext (context_documents : List RetrievedDoc) : String :=
  String.intercalate "\n\n" (context_documents.map fun doc =>
    "Document: " ++ doc.title.getD "Unknown" ++ "\n" ++ doc.content.getD "")

/-- The grounded prompt built by generate_rag_response around the context
block and the query. -/
def ragPrompt (query : String) (context_documents : List RetrievedDoc) :
    String :=
  "Based on the following context, answer the user" ++ apos ++
    "s question. If the answer cannot be found in the context, say so clearly.\n\nContext:\n" ++
    ragContext context_documents ++
    "\n\nQuestion: " ++ query ++ "\n\nAnswer:"

/-- Answer generation client, from generate_rag_response: fetch the api key,
POST the grounded prompt to the chat-completion endpoint, and on status 200
return choices[0].message.content; otherwise raise an exception carrying the
status code. -/
def generate_rag_response (o : Oracle) (query : String)
    (context_documents : List RetrievedDoc) : Except String String :=
  match o.getSecret with
  | .error e => .error e
  | .ok _api_key =>
    let response := o.chatApi (ragPrompt query context_documents)
    if response.status = 200 then
      match response.choices with
      | c :: _ => .ok c
      | [] => .error "list index out of range"
    else
      .error ("LLM response generation failed: " ++ toString response.status)

/-- The metric datum assembled by publish_metrics, tagged with the
ENVIRONMENT dimension (defaulting to dev). -/
def mkMetric (o : Oracle) (name : String) (value : Rat) (unit : String) :
    Metric :=
  { name := name, value := value, unit := unit,
    environment := o.environment.getD "dev" }

/-- The put_metric_data call against the metrics backend; it may fail. -/
def put_metric_data (o : Oracle) (m : Metric) : Except String Unit :=
  o.metricsBackend m

/-- Metrics publisher, from publish_metrics: attempt the put, catch any
backend failure (it is only logged), and return normally either way.  The
second component records the attempted put. -/
def publish_metrics (o : Oracle) (name : String) (value : Rat)
    (unit : String) : Except String Unit × List Metric :=
  match put_metric_data o (mkMetric o name value unit) with
  | .ok _ => (.ok (), [mkMetric o name value unit])
  | .error _ => (.ok (), [mkMetric o name value unit])

/-- The headers attached to every response the handler builds. -/
def corsHeaders : List (String × String) :=
  [("Content-Type", "application/json"),
   ("Access-Control-Allow-Origin", "*")]

/-- A handler response: status code, headers, and the JSON body. -/
structure Response where
  statusCode : Nat
  headers : List (String × String)
  body : Json

/-- The observable outcome of one invocation: the single terminal response
and the list of metric puts attempted, in order. -/
structure HResult where
  response : Response
  metrics : List Metric

/-- The 400 validation response for an empty query. -/
def validationResponse : Response :=
  { statusCode := 400, headers := corsHeaders,
    body := Json.obj [("error", Json.str "Query is required")] }

/-- The canned 200 response when the search returns no documents. -/
def noDocsResponse : Response :=
  { statusCode := 200, headers := corsHeaders,
    body := Json.obj
      [("answer",
        Json.str "I could not find relevant information to answer your question."),
       ("sources", Json.arr [])] }

/-- The preview of a document content built in the sources list: the first
200 characters followed by an ellipsis when the content is longer than 200
characters, the content itself otherwise. -/
def contentPreview (content : String) : String :=
  if content.length > 200 then content.take 200 ++ "..." else content

/-- One entry of the sources list: title, content preview truncated at 200
characters with an ellipsis, and the metadata mapping. -/
def sourceJson (doc : RetrievedDoc) : Json :=
  Json.obj
    [("title", Json.str (doc.title.getD "Unknown")),
     ("content_preview", Json.str (contentPreview (doc.content.getD ""))),
     ("metadata",
      Json.obj ((doc.metadata.getD []).map fun p => (p.1, Json.str p.2)))]

/-- The success response body: answer, sources, and the echoed query. -/
def successBody (answer : String) (similar_docs : List RetrievedDoc)
    (query : String) : Json :=
  Json.obj
    [("answer", Json.str answer),
     ("sources", Json.arr (similar_docs.map sourceJson)),
     ("query", Json.str query)]

/-- Parsing of the event body at the top of the handler: a string body goes
through json.loads (which may raise), a structured body is used as is, an
absent body defaults to the empty mapping. -/
def parsedBody (o : Oracle) (event : Event) : Except String Body :=
  match event.body with
  | .str s => o.jsonLoads s
  | .obj b => .ok b
  | .absent => .ok { query := none }

/-- The try block of lambda_handler: parse, validate, embed, search,
short-circuit on no documents, generate, shape the response, publish the
three success metrics.  An error value is an exception escaping to the
except clause. -/
def tryBlock (o : Oracle) (event : Event) : Except String HResult :=
  match parsedBody o event with
  | .error e => .error e
  | .ok body =>
    let query := pyStrip (body.query.getD "")
    if query = "" then
      .ok { response := validationResponse, metrics := [] }
    else
      match generate_embedding o query with
      | .error e => .error e
      | .ok query_embedding =>
        match search_similar_documents o query_embedding with
        | .error e => .error e
        | .ok similar_docs =>
          if similar_docs.isEmpty then
            .ok { response := noDocsResponse, metrics := [] }
          else
            match generate_rag_response o query similar_docs with
            | .error e => .error e
            | .ok answer =>
              let processing_time :=
                ((o.startTime - o.remainingAtEnd : Int) : Rat) / 1000
              let p1 := publish_metrics o "QueryProcessingTime"
                processing_time "Seconds"
              let p2 := publish_metrics o "DocumentsRetrieved"
                (similar_docs.length : Rat) "Count"
              let p3 := publish_metrics o "QueriesProcessed" 1 "Count"
              .ok { response :=
                      { statusCode := 200, headers := corsHeaders,
                        body := successBody answer similar_docs query },
                    metrics := p1.2 ++ p2.2 ++ p3.2 }

/-- The message field of the 500 body: the exception detail verbatim when
ENVIRONMENT equals dev, a fixed generic string otherwise. -/
def errorMessage (environment : Option String) (detail : String) : String :=
  if environment = some "dev" then detail
  else "An error occurred processing your request"

/-- The 500 response built in the except clause of lambda_handler. -/
def internalErrorResponse (environment : Option String) (detail : String) :
    Response :=
  { statusCode := 500, headers := corsHeaders,
    body := Json.obj
      [("error", Json.str "Internal server error"),
       ("message", Json.str (errorMessage environment detail))] }

/-- The main handler, from lambda_handler: run the try block; on any
escaping exception publish the QueryErrors metric once and return the 500
response. -/
def lambda_handler (o : Oracle) (event : Event) : HResult :=
  match tryBlock o event with
  | .ok r => r
  | .error e =>
    let p := publish_metrics o "QueryErrors" 1 "Count"
    { response := internalErrorResponse o.environment e,
      metrics := p.2 }

/-! Concrete fixtures used to evaluate the theorems on closed inputs. -/

/-- A successful embedding-endpoint response. -/
def okEmbed : EmbedResponse :=
  { status := 200, text := "", dataEmbeddings := [[1, 2]] }

/-- A failing embedding-endpoint response with status 503 and a body. -/
def failEmbed : EmbedResponse :=
  { status := 503, text := "Service Unavailable", dataEmbeddings := [] }

/-- A successful chat-endpoint response. -/
def okChat : ChatResponse :=
  { status := 200, text := "", choices := ["the answer"] }

/-- A failing chat-endpoint response. -/
def failChat : ChatResponse :=
  { status := 500, text := "", choices := [] }

/-- A baseline oracle: secrets resolve, the embedding and chat endpoints
succeed, the index returns no hits, metrics puts succeed, ENVIRONMENT is
unset. -/
def oBase : Oracle :=
  { jsonLoads := fun _ => .error "Expecting value: line 1 column 1 (char 0)",
    getSecret := .ok "test-key",
    embedApi := fun _ => okEmbed,
    searchApi := fun _ => .ok [],
    chatApi := fun _ => okChat,
    metricsBackend := fun _ => .ok (),
    environment := none,
    startTime := 5000,
    remainingAtEnd := 4000 }

/-- The baseline oracle with a failing embedding endpoint. -/
def oEmbedFail : Oracle := { oBase with embedApi := fun _ => failEmbed }

/-- The failing-embedding oracle running under a staging environment
label. -/
def oStaging : Oracle := { oEmbedFail with environment := some "staging" }

/-- The failing-embedding oracle running under the dev environment
label. -/
def oDev : Oracle := { oEmbedFail with environment := some "dev" }

/-- An event whose body carries a whitespace-only query. -/
def evBlankQuery : Event := { body := .obj { query := some "   " } }

/-- An event whose body carries a real query. -/
def evQuery : Event := { body := .obj { query := some "hi" } }

/-- An event whose body is a raw string that does not decode as JSON. -/
def evBadBody : Event := { body := .str "not json" }

/-- A retrieved document with a short content. -/
def docShort : RetrievedDoc :=
  { title := some "Doc A", content := some "short content",
    metadata := some [("k", "v")] }

/-- A content string of 250 identical characters, longer than the preview
limit. -/
def longContent : String := String.mk (List.replicate 250 (Char.ofNat 97))

/-- A retrieved document with no title, a long content and no metadata. -/
def docLong : RetrievedDoc :=
  { title := none, content := some longContent, metadata := none }

/-- The baseline oracle with an index that returns two documents. -/
def oTwoDocs : Oracle :=
  { oBase with searchApi := fun _ => .ok [docShort, docLong] }

/-- Modelled from the claim text about error-detail exposure: show the
exception detail whenever the environment label does not designate
production, and the generic string only under the production label. -/
def errorMessageClaimed (environment : Option String) (detail : String) :
    String :=
  if environment = some "production" then
    "An error occurred processing your request"
  else detail

/-- Rendering of one document inside the context block, as the spec words
it: the word Document, the title defaulting to Unknown, a newline, the
content defaulting to empty. -/
def specRenderDoc (d : RetrievedDoc) : String :=
  "Document: " ++ d.title.getD "Unknown" ++ "\n" ++ d.content.getD ""

/-- Modelled from the spec text: the context block as the concatenation, in
input order, of the document renderings, consecutive renderings separated
by a blank line. -/
def specContextBlock : List RetrievedDoc → String
  | [] => ""
  | [d] => specRenderDoc d
  | d :: d2 :: ds => specRenderDoc d ++ "\n\n" ++ specContextBlock (d2 :: ds)

/-! Helper lemmas shared by the claim theorems. -/

/-- A publish attempt always returns normally and records exactly the one
assembled metric, whatever the backend does. -/
theorem publish_metrics_eq (o : Oracle) (name : String) (value : Rat)
    (unit : String) :
    publish_metrics o name value unit =
      (Except.ok (), [mkMetric o name value unit]) := by
  unfold publish_metrics put_metric_data
  cases o.metricsBackend (mkMetric o name value unit) <;> rfl

/-- Parsing the event body only depends on the JSON decoder field of the
oracle. -/
theorem parsedBody_congr (o o' : Oracle) (event : Event)
    (h : o'.jsonLoads = o.jsonLoads) :
    parsedBody o' event = parsedBody o event := by
  obtain ⟨eb⟩ := event
  cases eb <;> simp [parsedBody, h]

/-- Every result of the try block carries the common headers. -/
theorem tryBlock_ok_headers (o : Oracle) (event : Event) (r : HResult)
    (htb : tryBlock o event = .ok r) :
    r.response.headers = corsHeaders := by
  unfold tryBlock at htb
  split at htb
  · cases htb
  · dsimp only at htb
    split at htb
    · cases htb; rfl
    · split at htb
      · cases htb
      · split at htb
        · cases htb
        · split at htb
          · cases htb; rfl
          · split at htb
            · cases htb
            · cases htb; rfl

/-- The embedding client only depends on the secret store and the embedding
endpoint fields of the oracle. -/
theorem generate_embedding_congr (o o' : Oracle) (text : String)
    (hs : o'.getSecret = o.getSecret) (he : o'.embedApi = o.embedApi) :
    generate_embedding o' text = generate_embedding o text := by
  unfold generate_embedding
  rw [hs, he]

/-- The answer generation client only depends on the secret store and the
chat endpoint fields of the oracle. -/
theorem generate_rag_response_congr (o o' : Oracle) (query : String)
    (docs : List RetrievedDoc) (hs : o'.getSecret = o.getSecret)
    (hc : o'.chatApi = o.chatApi) :
    generate_rag_response o' query docs =
      generate_rag_response o query docs := by
  unfold generate_rag_response
  rw [hs, hc]

/-- C9: every response the handler returns, on every path, carries the
Content-Type application/json header and the permissive cross-origin
header. -/
theorem responses_always_carry_cors_headers (o : Oracle) (event : Event) :
    (lambda_handler o event).response.headers =
      [("Content-Type", "application/json"),
       ("Access-Control-Allow-Origin", "*")] := by
  unfold lambda_handler
  split
  · rename_i r htb
    exact tryBlock_ok_headers o event r htb
  · rfl

/-- C1: for every inbound event whose query, after stripping whitespace, is
empty (missing or whitespace-only included), the handler returns exactly the
400 Query-is-required response, publishes no metric, and the outcome is
independent of the secret store, the embedding endpoint, the vector index
and the chat endpoint, so none of those collaborators is consulted. -/
theorem empty_query_returns_400 (o : Oracle) (event : Event) (b : Body)
    (hbody : parsedBody o event = .ok b)
    (hquery : pyStrip (b.query.getD "") = "")
    (g : Except String String) (ea : String → EmbedResponse)
    (sa : List Rat → Except String (List RetrievedDoc))
    (ca : String → ChatResponse) :
    lambda_handler o event =
      { response := validationResponse, metrics := [] } ∧
    lambda_handler
      { o with getSecret := g, embedApi := ea, searchApi := sa,
               chatApi := ca } event =
      { response := validationResponse, metrics := [] } := by
  have key : ∀ o' : Oracle, parsedBody o' event = .ok b →
      lambda_handler o' event =
        { response := validationResponse, metrics := [] } := by
    intro o' hb
    unfold lambda_handler tryBlock
    rw [hb]
    dsimp only
    rw [if_pos hquery]
  exact ⟨key o hbody,
    key _ ((parsedBody_congr o _ event rfl).trans hbody)⟩

/-- Witness for C1 at a whitespace-only query, with collaborators that
would all fail if consulted. -/
theorem empty_query_returns_400_witness :
    lambda_handler oBase evBlankQuery =
      { response := validationResponse, metrics := [] } ∧
    lambda_handler
      { oBase with getSecret := .error "no secret",
                   embedApi := fun _ => failEmbed,
                   searchApi := fun _ => .error "index down",
                   chatApi := fun _ => failChat } evBlankQuery =
      { response := validationResponse, metrics := [] } :=
  empty_query_returns_400 oBase evBlankQuery { query := some "   " }
    rfl rfl (.error "no secret") (fun _ => failEmbed)
    (fun _ => .error "index down") (fun _ => failChat)

/-- C4: whenever the try block fails after validation, the handler returns
the generic 500 Internal-server-error response, and the metric log is the
one-element list holding the QueryErrors put with value 1, so the error
count is published exactly once; the handler returns this single terminal
result. -/
theorem failure_returns_500_and_one_error_metric (o : Oracle)
    (event : Event) (e : String) (htb : tryBlock o event = .error e) :
    lambda_handler o event =
      { response := internalErrorResponse o.environment e,
        metrics := [mkMetric o "QueryErrors" 1 "Count"] } ∧
    (internalErrorResponse o.environment e).statusCode = 500 ∧
    (internalErrorResponse o.environment e).body =
      Json.obj [("error", Json.str "Internal server error"),
                ("message", Json.str (errorMessage o.environment e))] ∧
    (mkMetric o "QueryErrors" 1 "Count").name = "QueryErrors" ∧
    (mkMetric o "QueryErrors" 1 "Count").value = 1 := by
  refine ⟨?_, rfl, rfl, rfl, rfl⟩
  unfold lambda_handler
  rw [htb]
  dsimp only
  rw [publish_metrics_eq]

/-- Witness for C4 at a concrete invocation whose embedding endpoint
answers 503. -/
theorem failure_returns_500_witness :
    lambda_handler oEmbedFail evQuery =
      { response :=
          internalErrorResponse oEmbedFail.environment
            "Embedding generation failed: 503",
        metrics := [mkMetric oEmbedFail "QueryErrors" 1 "Count"] } ∧
    (internalErrorResponse oEmbedFail.environment
        "Embedding generation failed: 503").statusCode = 500 ∧
    (internalErrorResponse oEmbedFail.environment
        "Embedding generation failed: 503").body =
      Json.obj [("error", Json.str "Internal server error"),
                ("message",
                 Json.str (errorMessage oEmbedFail.environment
                   "Embedding generation failed: 503"))] ∧
    (mkMetric oEmbedFail "QueryErrors" 1 "Count").name = "QueryErrors" ∧
    (mkMetric oEmbedFail "QueryErrors" 1 "Count").value = 1 :=
  failure_returns_500_and_one_error_metric oEmbedFail evQuery
    "Embedding generation failed: 503" rfl

/-- C10: a string body that fails JSON decoding is treated as an internal
failure: the handler returns the generic 500 response (not the 400
validation error) and publishes the error-count metric. -/
theorem malformed_body_returns_500 (o : Oracle) (s d : String)
    (hjson : o.jsonLoads s = .error d) :
    lambda_handler o { body := .str s } =
      { response := internalErrorResponse o.environment d,
        metrics := [mkMetric o "QueryErrors" 1 "Count"] } ∧
    (internalErrorResponse o.environment d).statusCode = 500 ∧
    (internalErrorResponse o.environment d).statusCode ≠ 400 ∧
    (mkMetric o "QueryErrors" 1 "Count").name = "QueryErrors" := by
  refine ⟨?_, rfl, show (500 : Nat) ≠ 400 by decide, rfl⟩
  unfold lambda_handler tryBlock parsedBody
  dsimp only
  rw [hjson]
  dsimp only
  rw [publish_metrics_eq]

/-- Witness for C10 at a concrete undecodable string body. -/
theorem malformed_body_returns_500_witness :
    lambda_handler oBase { body := .str "not json" } =
      { response :=
          internalErrorResponse oBase.environment
            "Expecting value: line 1 column 1 (char 0)",
        metrics := [mkMetric oBase "QueryErrors" 1 "Count"] } ∧
    (internalErrorResponse oBase.environment
        "Expecting value: line 1 column 1 (char 0)").statusCode = 500 ∧
    (internalErrorResponse oBase.environment
        "Expecting value: line 1 column 1 (char 0)").statusCode ≠ 400 ∧
    (mkMetric oBase "QueryErrors" 1 "Count").name = "QueryErrors" :=
  malformed_body_returns_500 oBase "not json"
    "Expecting value: line 1 column 1 (char 0)" rfl

/-- C3: when the search returns zero documents, the handler answers 200
with the canned no-information answer and an empty sources list, and the
outcome is independent of the chat endpoint, so the answer-generation
collaborator is never called. -/
theorem no_documents_short_circuit (o : Oracle) (event : Event) (b : Body)
    (v : List Rat) (ca : String → ChatResponse)
    (hbody : parsedBody o event = .ok b)
    (hquery : pyStrip (b.query.getD "") ≠ "")
    (hemb : generate_embedding o (pyStrip (b.query.getD "")) = .ok v)
    (hsearch : o.searchApi v = .ok []) :
    lambda_handler o event =
      { response := noDocsResponse, metrics := [] } ∧
    noDocsResponse.statusCode = 200 ∧
    noDocsResponse.body =
      Json.obj
        [("answer",
          Json.str
            "I could not find relevant information to answer your question."),
         ("sources", Json.arr [])] ∧
    lambda_handler { o with chatApi := ca } event =
      { response := noDocsResponse, metrics := [] } := by
  have key : ∀ ca' : String → ChatResponse,
      lambda_handler { o with chatApi := ca' } event =
        { response := noDocsResponse, metrics := [] } := by
    intro ca'
    unfold lambda_handler tryBlock
    rw [(parsedBody_congr o { o with chatApi := ca' } event rfl).trans
      hbody]
    dsimp only
    rw [if_neg hquery]
    rw [generate_embedding_congr o { o with chatApi := ca' } _ rfl rfl,
      hemb]
    dsimp only
    have hs : search_similar_documents { o with chatApi := ca' } v =
        .ok ([] : List RetrievedDoc) := hsearch
    rw [hs]
    rfl
  refine ⟨key o.chatApi, rfl, rfl, key ca⟩

/-- Witness for C3 at a concrete invocation whose index returns no hits and
whose chat endpoint would fail if consulted. -/
theorem no_documents_short_circuit_witness :
    lambda_handler oBase evQuery =
      { response := noDocsResponse, metrics := [] } ∧
    noDocsResponse.statusCode = 200 ∧
    noDocsResponse.body =
      Json.obj
        [("answer",
          Json.str
            "I could not find relevant information to answer your question."),
         ("sources", Json.arr [])] ∧
    lambda_handler { oBase with chatApi := fun _ => failChat } evQuery =
      { response := noDocsResponse, metrics := [] } :=
  no_documents_short_circuit oBase evQuery { query := some "hi" } [1, 2]
    (fun _ => failChat) rfl (by decide) rfl rfl

/-- A string of at most 200 characters never equals its own 200-character
truncation followed by an ellipsis. -/
theorem short_ne_truncated (c : String) (h : c.length ≤ 200) :
    c ≠ c.take 200 ++ "..." := by
  intro hc
  have hlen := congrArg String.length hc
  rw [String.length_append] at hlen
  have ht : (c.take 200).length = min 200 c.length := by
    rw [← String.length_data (c.take 200), String.data_take,
      List.length_take, String.length_data]
  rw [ht, show ("..." : String).length = 3 from rfl] at hlen
  omega

/-- C2: on a successful pipeline the 200 response body holds one source per
retrieved document, in order, and each preview is the first 200 characters
of the content plus an ellipsis exactly when the content is longer than 200
characters, the unmodified content otherwise. -/
theorem success_sources_match_documents (o : Oracle) (event : Event)
    (b : Body) (v : List Rat) (docs : List RetrievedDoc) (ans : String)
    (hbody : parsedBody o event = .ok b)
    (hquery : pyStrip (b.query.getD "") ≠ "")
    (hemb : generate_embedding o (pyStrip (b.query.getD "")) = .ok v)
    (hsearch : o.searchApi v = .ok docs)
    (hne : docs.isEmpty = false)
    (hgen : generate_rag_response o (pyStrip (b.query.getD "")) docs =
      .ok ans) :
    (lambda_handler o event).response =
      { statusCode := 200, headers := corsHeaders,
        body := successBody ans docs (pyStrip (b.query.getD "")) } ∧
    (docs.map sourceJson).length = docs.length ∧
    ∀ d ∈ docs,
      ((d.content.getD "").length ≤ 200 →
        contentPreview (d.content.getD "") = d.content.getD "") ∧
      (contentPreview (d.content.getD "") =
          (d.content.getD "").take 200 ++ "..." ↔
        (d.content.getD "").length > 200) := by
  refine ⟨?_, List.length_map docs sourceJson, ?_⟩
  · unfold lambda_handler tryBlock
    rw [hbody]
    dsimp only
    rw [if_neg hquery, hemb]
    dsimp only
    have hs : search_similar_documents o v = .ok docs := hsearch
    rw [hs]
    dsimp only
    rw [if_neg (by simp [hne]), hgen]
  · intro d _
    refine ⟨fun hle => by unfold contentPreview; rw [if_neg (by omega)],
      ?_, ?_⟩
    · intro hpe
      by_contra hng
      push_neg at hng
      have hne2 := short_ne_truncated (d.content.getD "") hng
      unfold contentPreview at hpe
      rw [if_neg (by omega)] at hpe
      exact hne2 hpe
    · intro hgt
      unfold contentPreview
      rw [if_pos hgt]

/-- Witness for C2 at an invocation retrieving one short and one long
document. -/
theorem success_sources_match_documents_witness :
    (lambda_handler oTwoDocs evQuery).response =
      { statusCode := 200, headers := corsHeaders,
        body := successBody "the answer" [docShort, docLong] "hi" } ∧
    ([docShort, docLong].map sourceJson).length =
      [docShort, docLong].length ∧
    ∀ d ∈ [docShort, docLong],
      ((d.content.getD "").length ≤ 200 →
        contentPreview (d.content.getD "") = d.content.getD "") ∧
      (contentPreview (d.content.getD "") =
          (d.content.getD "").take 200 ++ "..." ↔
        (d.content.getD "").length > 200) :=
  success_sources_match_documents oTwoDocs evQuery { query := some "hi" }
    [1, 2] [docShort, docLong] "the answer" rfl (by decide) rfl rfl rfl rfl

/-- Unfolding lemma for the accumulator of String.intercalate. -/
theorem intercalate_go_cons (l : List String) : ∀ acc s b : String,
    String.intercalate.go acc s (b :: l) =
      acc ++ s ++ String.intercalate.go b s l := by
  induction l with
  | nil => intro acc s b; rfl
  | cons c l ih =>
    intro acc s b
    show String.intercalate.go (acc ++ s ++ b) s (c :: l) =
      acc ++ s ++ String.intercalate.go b s (c :: l)
    rw [ih, ih b s c]
    simp [String.append_assoc]

/-- String.intercalate on a list of two or more elements peels off the
head. -/
theorem intercalate_cons_cons (s a b : String) (l : List String) :
    String.intercalate s (a :: b :: l) =
      a ++ s ++ String.intercalate s (b :: l) := by
  show String.intercalate.go a s (b :: l) = a ++ s ++ String.intercalate.go b s l
  exact intercalate_go_cons l a s b

/-- The context block of the source agrees with the recursive rendering
worded by the spec, on every document list. -/
theorem ragContext_eq_specContextBlock :
    ∀ docs : List RetrievedDoc, ragContext docs = specContextBlock docs
  | [] => rfl
  | [_] => rfl
  | d :: d2 :: ds => by
    have ih := ragContext_eq_specContextBlock (d2 :: ds)
    unfold ragContext
    simp only [List.map_cons]
    rw [intercalate_cons_cons]
    unfold ragContext at ih
    simp only [List.map_cons] at ih
    rw [ih]
    rfl

/-- C6: for every query and document list, the context block passed to
answer generation inside the grounded prompt is exactly the concatenation,
in input order, of each document rendered as Document-title-newline-content
with a blank line between consecutive renderings, titles defaulting to
Unknown and contents to empty. -/
theorem context_block_matches_spec (q : String)
    (docs : List RetrievedDoc) :
    ragContext docs = specContextBlock docs ∧
    ragPrompt q docs =
      "Based on the following context, answer the user" ++ apos ++
        "s question. If the answer cannot be found in the context, say so clearly.\n\nContext:\n" ++
        specContextBlock docs ++ "\n\nQuestion: " ++ q ++ "\n\nAnswer:" := by
  refine ⟨ragContext_eq_specContextBlock docs, ?_⟩
  unfold ragPrompt
  rw [ragContext_eq_specContextBlock docs]

/-- Counterexample to C5 as stated: the staging label designates a
non-production environment, so the claim prescribes the verbatim detail,
yet the handler answers with the fixed generic string instead. -/
theorem error_detail_env_counterexample :
    oStaging.environment = some "staging" ∧
    oStaging.environment ≠ some "production" ∧
    errorMessageClaimed oStaging.environment
        "Embedding generation failed: 503" =
      "Embedding generation failed: 503" ∧
    (lambda_handler oStaging evQuery).response.body =
      Json.obj
        [("error", Json.str "Internal server error"),
         ("message",
          Json.str "An error occurred processing your request")] ∧
    "An error occurred processing your request" ≠
      "Embedding generation failed: 503" := by
  exact ⟨rfl, by decide, rfl, rfl, by decide⟩

/-- C5 amended: the 500 body shows the exception detail verbatim exactly
when the environment label is the designated dev label; under every other
label, production and staging alike, it is the fixed generic string, so in
production the message does not depend on the detail. -/
theorem error_detail_env_amended (o : Oracle) (event : Event) (e : String)
    (htb : tryBlock o event = .error e) :
    (lambda_handler o event).response.body =
      Json.obj [("error", Json.str "Internal server error"),
                ("message", Json.str (errorMessage o.environment e))] ∧
    (o.environment = some "dev" → errorMessage o.environment e = e) ∧
    (o.environment ≠ some "dev" →
      errorMessage o.environment e =
        "An error occurred processing your request") := by
  refine ⟨?_, fun h => by unfold errorMessage; rw [if_pos h],
    fun h => by unfold errorMessage; rw [if_neg h]⟩
  unfold lambda_handler
  rw [htb]
  rfl

/-- Witness for the amended C5 under the dev label at a failing
invocation. -/
theorem error_detail_env_amended_witness :
    (lambda_handler oDev evQuery).response.body =
      Json.obj [("error", Json.str "Internal server error"),
                ("message",
                 Json.str (errorMessage oDev.environment
                   "Embedding generation failed: 503"))] ∧
    (oDev.environment = some "dev" →
      errorMessage oDev.environment "Embedding generation failed: 503" =
        "Embedding generation failed: 503") ∧
    (oDev.environment ≠ some "dev" →
      errorMessage oDev.environment "Embedding generation failed: 503" =
        "An error occurred processing your request") :=
  error_detail_env_amended oDev evQuery
    "Embedding generation failed: 503" rfl

/-- Counterexample to C7 as stated: with a 503 embedding response whose
body text is Service Unavailable, the raised error carries the status code
but the body text occurs nowhere in it. -/
theorem embedding_error_body_counterexample :
    (oEmbedFail.embedApi "hi").status = 503 ∧
    (oEmbedFail.embedApi "hi").text = "Service Unavailable" ∧
    generate_embedding oEmbedFail "hi" =
      .error "Embedding generation failed: 503" ∧
    ¬ ("Service Unavailable".data <:+:
        "Embedding generation failed: 503".data) :=
  ⟨rfl, rfl, rfl, by decide⟩

/-- C7 amended: on a non-200 status the embedding client fails with an
error carrying the status code (the body is only logged, not carried); on a
200 status with a nonempty data array it returns the first embedding vector
of the payload. -/
theorem embedding_client_amended (o : Oracle) (text k : String) (st : Nat)
    (bodyText : String) (emb : List (List Rat))
    (hsec : o.getSecret = .ok k)
    (hresp : o.embedApi text =
      { status := st, text := bodyText, dataEmbeddings := emb }) :
    (st ≠ 200 →
      generate_embedding o text =
        .error ("Embedding generation failed: " ++ toString st)) ∧
    (st = 200 → emb ≠ [] →
      generate_embedding o text = .ok (emb.headD [])) := by
  constructor
  · intro hst
    unfold generate_embedding
    rw [hsec]
    dsimp only
    rw [hresp]
    dsimp only
    rw [if_neg hst]
  · intro hst hne
    unfold generate_embedding
    rw [hsec]
    dsimp only
    rw [hresp]
    dsimp only
    rw [if_pos hst]
    cases emb with
    | nil => exact absurd rfl hne
    | cons v rest => rfl

/-- Witness for the amended C7 at the concrete 503 response. -/
theorem embedding_client_amended_witness :
    ((503 : Nat) ≠ 200 →
      generate_embedding oEmbedFail "hi" =
        .error ("Embedding generation failed: " ++ toString (503 : Nat))) ∧
    ((503 : Nat) = 200 → ([] : List (List Rat)) ≠ [] →
      generate_embedding oEmbedFail "hi" =
        .ok (([] : List (List Rat)).headD [])) :=
  embedding_client_amended oEmbedFail "hi" "test-key" 503
    "Service Unavailable" [] rfl rfl

/-- Changing the metrics backend leaves the try block unchanged: every
publish attempt returns normally and records the same metric whatever the
backend answers. -/
theorem tryBlock_backend_invariant (o : Oracle)
    (back : Metric → Except String Unit) (event : Event) :
    tryBlock { o with metricsBackend := back } event =
      tryBlock o event := by
  unfold tryBlock
  rw [parsedBody_congr o { o with metricsBackend := back } event rfl]
  cases hp : parsedBody o event with
  | error e => rfl
  | ok b =>
    dsimp only
    by_cases hq : pyStrip (b.query.getD "") = ""
    · rw [if_pos hq, if_pos hq]
    · rw [if_neg hq, if_neg hq]
      rw [generate_embedding_congr o { o with metricsBackend := back } _
        rfl rfl]
      cases he : generate_embedding o (pyStrip (b.query.getD "")) with
      | error e => rfl
      | ok v =>
        dsimp only
        rw [show search_similar_documents { o with metricsBackend := back }
            v = search_similar_documents o v from rfl]
        cases hs : search_similar_documents o v with
        | error e => rfl
        | ok docs =>
          dsimp only
          by_cases hd : docs.isEmpty = true
          · rw [if_pos hd, if_pos hd]
          · rw [if_neg hd, if_neg hd]
            rw [generate_rag_response_congr o
              { o with metricsBackend := back } _ _ rfl rfl]
            cases hg : generate_rag_response o (pyStrip (b.query.getD ""))
                docs with
            | error e => rfl
            | ok ans =>
              dsimp only
              simp only [publish_metrics_eq]
              rfl

/-- C8: the metrics publisher never raises to its caller, whatever the
backend answers, and replacing the metrics backend by any other (an outage
included) leaves the handler outcome untouched, so a metrics failure cannot
change the response. -/
theorem metrics_failures_never_escape (o : Oracle)
    (back : Metric → Except String Unit) (n : String) (val : Rat)
    (u : String) (event : Event) :
    (publish_metrics o n val u).1 = .ok () ∧
    lambda_handler { o with metricsBackend := back } event =
      lambda_handler o event := by
  constructor
  · rw [publish_metrics_eq]
  · unfold lambda_handler
    rw [tryBlock_backend_invariant o back event]
    cases h : tryBlock o event with
    | ok r => rfl
    | error e =>
      dsimp only
      simp only [publish_metrics_eq]
      rfl
